import Mathlib

/-!
Shallow embedding of the raylib_moonlander flight / terrain / session core
(src/lander.cpp, src/game.cpp).  Floating-point scalars are modelled as
rationals; C `fmodf` is modelled exactly (truncation toward zero); trig
calls (`sinf`, `cosf` on degree arguments) are abstract function parameters
of the environment, since no claim depends on their values.
-/

namespace Moonlander

/-- Truncation toward zero on rationals, as C float-to-int rounding used by
`fmodf`. -/
def qtrunc (x : ℚ) : ℤ := if 0 ≤ x then ⌊x⌋ else ⌈x⌉

/-- C `fmodf x y = x - trunc (x / y) * y` (result carries the sign of `x`). -/
def fmodq (x y : ℚ) : ℚ := x - (qtrunc (x / y) : ℚ) * y

/-- C `fmaxf`. -/
def fmaxf (a b : ℚ) : ℚ := if a < b then b else a

/-- C `fminf`. -/
def fminf (a b : ℚ) : ℚ := if b < a then b else a

/-- C `fabsf`. -/
def fabsf (x : ℚ) : ℚ := if x < 0 then -x else x

/-- `Lander::collisionScale = 0.8f` (src/lander.h). -/
def collisionScale : ℚ := 4 / 5

/-- `Lander::initialFuelConsumption = 10.0f` (src/lander.h). -/
def initialFuelConsumption : ℚ := 10

/-- `MAX_FUEL_CONSUMPTION 0.1f` (src/globals.h). -/
def MAX_FUEL_CONSUMPTION : ℚ := 1 / 10

/-- `INITIAL_GRAVITY 1.0f` (src/globals.h). -/
def INITIAL_GRAVITY : ℚ := 1

/-- `MAX_GRAVITY 2.0f` (src/globals.h). -/
def MAX_GRAVITY : ℚ := 2

/-- `INITIAL_VELOCITY_LIMIT 0.8f` (src/globals.h). -/
def INITIAL_VELOCITY_LIMIT : ℚ := 4 / 5

/-- `Game::gravityIncrease = 0.15f` (src/game.h). -/
def gravityIncrease : ℚ := 3 / 20

/-- `Game::fuelConsumptionIncrease = 0.01f` (src/game.h). -/
def fuelConsumptionIncrease : ℚ := 1 / 100

/-- Ambient parameters read by `Lander::Update`: the static game globals,
the screen dimensions, the trig functions (abstract, degree argument), and
the terrain point sequence shared by reference. -/
structure Env where
  gravity : ℚ
  thrust : ℚ
  rotationSpeed : ℚ
  fuelConsumption : ℚ
  velocityLimit : ℚ
  gameScreenWidth : ℚ
  gameScreenHeight : ℚ
  sinDeg : ℚ → ℚ
  cosDeg : ℚ → ℚ
  terrain : List (ℚ × ℚ)

/-- The mutable fields of `class Lander` that the simulation touches. -/
structure LanderState where
  landerX : ℚ
  landerY : ℚ
  velocityX : ℚ
  velocityY : ℚ
  angle : ℚ
  fuel : ℚ
  landed : Bool
  crashed : Bool
  width : ℚ
  height : ℚ
  landingPadX : ℚ
  crashPosX : ℚ
  crashPosY : ℚ
deriving DecidableEq

/-- `Lander::Reset` (src/lander.cpp:81-110): the random pad abscissa is an
input; `width` depends on whether the texture loaded and on its aspect
ratio, both inputs here. -/
def landerReset (screenWidth padX : ℚ) (hasTexture : Bool) (texAspect : ℚ) :
    LanderState :=
  { landerX := screenWidth / 2
    landerY := 50
    velocityX := 0
    velocityY := 0
    angle := 0
    fuel := 100
    landed := false
    crashed := false
    height := 60
    width := if hasTexture then 60 * texAspect else 20
    landingPadX := padX
    crashPosX := 0
    crashPosY := 0 }

/-- The terrain scan of `Lander::Update` (src/lander.cpp:188-253): walk the
segments in ascending order; on the first segment whose x-range contains
`centerX` and whose interpolated height is at or above the collision-box
bottom, return that interpolated height.

Fidelity caveat: on a zero-width segment containing `centerX` the rational
division here yields 0 (so `h = p.2`, possibly a hit), whereas the C float
code produces NaN, whose comparison fails, skipping the segment.  The two
semantics agree on every terrain whose segments have nonzero width —
which, by `terrain_spacing_positive`, covers every terrain the generator
can produce.  `scanDividesByZero` below captures, faithfully in both
semantics, whether the scan ever reaches the division with a zero
divisor. -/
def findHit (centerX collisionBottom : ℚ) : List (ℚ × ℚ) → Option ℚ
  | p :: q :: rest =>
    if p.1 ≤ centerX ∧ centerX ≤ q.1 then
      let t := (centerX - p.1) / (q.1 - p.1)
      let h := p.2 * (1 - t) + q.2 * t
      if h ≤ collisionBottom then some h
      else findHit centerX collisionBottom (q :: rest)
    else findHit centerX collisionBottom (q :: rest)
  | _ => none

/-- Companion to `findHit`, traversing exactly like the scan of
src/lander.cpp:188-253: `true` iff the loop reaches the interpolation
division `t = (centerX - terrain[i].x) / (terrain[i+1].x - terrain[i].x)`
with a zero divisor.  The source tests only containment before dividing
(src/lander.cpp:190-192) — it never tests the segment width — so on a
containing zero-width segment the division by zero is executed; this
event precedes any use of the quotient and is therefore independent of
how the quotient itself is modelled. -/
def scanDividesByZero (centerX collisionBottom : ℚ) : List (ℚ × ℚ) → Bool
  | p :: q :: rest =>
    if p.1 ≤ centerX ∧ centerX ≤ q.1 then
      if q.1 - p.1 = 0 then true
      else
        let t := (centerX - p.1) / (q.1 - p.1)
        let h := p.2 * (1 - t) + q.2 * t
        if h ≤ collisionBottom then false
        else scanDividesByZero centerX collisionBottom (q :: rest)
    else scanDividesByZero centerX collisionBottom (q :: rest)
  | _ => false

/-- Horizontal center of the collision rectangle (src/lander.cpp:185). -/
def centerXOf (s : LanderState) : ℚ := s.landerX + s.width * collisionScale / 2

/-- Vertical center of the collision rectangle (src/lander.cpp:186). -/
def centerYOf (s : LanderState) : ℚ := s.landerY + s.height * collisionScale / 2

/-- Bottom edge of the collision rectangle (src/lander.cpp:183). -/
def bottomOf (s : LanderState) : ℚ := s.landerY + s.height * collisionScale

/-- The angle normalization used by the landing check
(src/lander.cpp:202). -/
def normalizedAngle (a : ℚ) : ℚ := fmodq (a + 180) 360 - 180

/-- The kinematic part of one `Lander::Update` tick
(src/lander.cpp:120-174): gravity, thrust, rotation, position integration,
screen clamps.  Mirrors the source statement order; in particular the
rotation gate `isRotating` reads `fuel` before the thrust branch runs. -/
def integrate (env : Env) (dt : ℚ) (thrusting rotatingLeft rotatingRight : Bool)
    (s : LanderState) : LanderState :=
  let vy1 := s.velocityY + env.gravity * dt
  let isRotating := (rotatingLeft || rotatingRight) && decide (0 < s.fuel)
  let doThrust := thrusting && decide (0 < s.fuel)
  let vx2 := if doThrust then s.velocityX + env.sinDeg s.angle * env.thrust * dt
             else s.velocityX
  let vy2 := if doThrust then vy1 - env.cosDeg s.angle * env.thrust * dt else vy1
  let fuel2 := if doThrust then fmaxf 0 (s.fuel - env.fuelConsumption * dt) else s.fuel
  let angle3 :=
    if isRotating then
      let a1 := if rotatingLeft then fmodq (s.angle + env.rotationSpeed) 360 else s.angle
      if rotatingRight then fmodq (a1 - env.rotationSpeed) 360 else a1
    else s.angle
  let fuel3 := if isRotating then fmaxf 0 (fuel2 - env.fuelConsumption * (1/2) * dt)
               else fuel2
  let x4 := s.landerX + vx2
  let y4 := s.landerY + vy2
  let x5 := fmaxf 0 (fminf (env.gameScreenWidth - s.width) x4)
  let y5 := if y4 < 0 then 0 else y4
  let vy5 := if y4 < 0 then 0 else vy2
  { s with landerX := x5, landerY := y5, velocityX := vx2, velocityY := vy5,
           angle := angle3, fuel := fuel3 }

/-- The collision / landing resolution part of one `Lander::Update` tick
(src/lander.cpp:176-253), applied to the post-integration state. -/
def resolveCollision (env : Env) (s : LanderState) : LanderState :=
  match findHit (centerXOf s) (bottomOf s) env.terrain with
  | none => s
  | some h =>
    let snapped : LanderState :=
      { s with landerY := h - s.height * collisionScale
                          - (s.height - s.height * collisionScale) / 2 }
    if fabsf (centerXOf s - s.landingPadX) ≤ 50 ∧
       fabsf (h - (env.gameScreenHeight - 50)) < 1 ∧
       fabsf s.velocityX < env.velocityLimit ∧
       fabsf s.velocityY < env.velocityLimit then
      if fabsf (normalizedAngle s.angle) < 15 then
        { snapped with landed := true }
      else
        { snapped with crashed := true, crashPosX := centerXOf s,
                       crashPosY := centerYOf s }
    else
      { snapped with crashed := true, crashPosX := centerXOf s,
                     crashPosY := centerYOf s }

/-- One full `Lander::Update` tick (src/lander.cpp:117-255): a no-op unless
the craft is flying. -/
def update (env : Env) (dt : ℚ) (thrusting rotatingLeft rotatingRight : Bool)
    (s : LanderState) : LanderState :=
  if s.landed || s.crashed then s
  else resolveCollision env (integrate env dt thrusting rotatingLeft rotatingRight s)

/-- A sequence of `Lander::Update` ticks, each with its own `dt` and input
flags. -/
def runTicks (env : Env) (inputs : List (ℚ × Bool × Bool × Bool))
    (s : LanderState) : LanderState :=
  inputs.foldl (fun st q => update env q.1 q.2.1 q.2.2.1 q.2.2.2 st) s

/-- `Game::TERRAIN_POINTS = 40` (src/game.h). -/
def TERRAIN_POINTS : ℕ := 40

/-- Height assigned to sample point `i` by the generation loop of
`Game::Randomize` (src/game.cpp:930-955).  `W`/`H` are the game screen
dimensions, `c` the pad center, `rand i` the value drawn by
`GetRandomValue` for a non-pad point. -/
def baseY (W H c : ℚ) (rand : ℕ → ℚ) (i : ℕ) : ℚ :=
  let segW := W / 39
  let x : ℚ := (i : ℚ) * segW
  if c - 50 - segW ≤ x ∧ x ≤ c + 50 + segW then
    if x < c - 50 then H - 50 - ((c - 50 - x) / segW) ^ 2 * 10
    else if c + 50 < x then H - 50 - ((x - (c + 50)) / segW) ^ 2 * 10
    else H - 50
  else rand i

/-- Height of point `i` after the first smoothing pass of `Game::Randomize`
(src/game.cpp:957-971): interior non-pad-region points are averaged over
the pre-smoothing snapshot; everything else keeps its generated value. -/
def pass1Y (W H c : ℚ) (rand : ℕ → ℚ) (i : ℕ) : ℚ :=
  let segW := W / 39
  let x : ℚ := (i : ℚ) * segW
  if 1 ≤ i ∧ i ≤ 38 then
    if c - 50 - segW ≤ x ∧ x ≤ c + 50 + segW then baseY W H c rand i
    else (baseY W H c rand (i - 1) + baseY W H c rand i + baseY W H c rand (i + 1)) / 3
  else baseY W H c rand i

/-- Height of point `i` after the second smoothing pass of
`Game::Randomize` (src/game.cpp:973-982): neighbours come from the
pass-1 output. -/
def pass2Y (W H c : ℚ) (rand : ℕ → ℚ) (i : ℕ) : ℚ :=
  let segW := W / 39
  let x : ℚ := (i : ℚ) * segW
  if 1 ≤ i ∧ i ≤ 38 then
    if c - 50 - segW ≤ x ∧ x ≤ c + 50 + segW then pass1Y W H c rand i
    else (pass1Y W H c rand (i - 1) + pass1Y W H c rand i + pass1Y W H c rand (i + 1)) / 3
  else pass1Y W H c rand i

/-- `Game::Randomize` (src/game.cpp:921-983): the 40-point terrain profile,
generation followed by the two smoothing passes. -/
def randomizeTerrain (W H c : ℚ) (rand : ℕ → ℚ) : List (ℚ × ℚ) :=
  (List.range TERRAIN_POINTS).map (fun (i : ℕ) => ((i : ℚ) * (W / 39), pass2Y W H c rand i))

/-- Every consecutive pair of terrain points has distinct x-coordinates:
the divisor `terrain[i+1].x - terrain[i].x` of the interpolation in
`Lander::Update` is nonzero at every segment the scan can visit. -/
def noZeroWidth : List (ℚ × ℚ) → Bool
  | p :: q :: rest => decide (q.1 - p.1 ≠ 0) && noZeroWidth (q :: rest)
  | _ => true

/-- The random inputs one respawn consumes: the pad abscissa drawn by
`Lander::Reset`, the texture facts deciding the craft width, and the
heights drawn by `Game::Randomize`. -/
structure RandIn where
  padX : ℚ
  hasTexture : Bool
  texAspect : ℚ
  heights : ℕ → ℚ

/-- The session state of `class Game` (src/game.h) that the outcome
handling touches, including the owned lander and terrain. -/
structure GameState where
  lives : ℤ
  level : ℤ
  gravity : ℚ
  maxGravityReached : Bool
  velocityLimit : ℚ
  fuelConsumption : ℚ
  gameOver : Bool
  gameWon : Bool
  explosionActive : Bool
  explosionCompleted : Bool
  lander : LanderState
  terrain : List (ℚ × ℚ)

/-- The outcome-handling block of `Game::Update` (src/game.cpp:351-393),
run right after `lander->Update`.  `continueKey` is the
ENTER-press/tap continue signal, `inputDelayElapsed` the landed-branch
debounce test, `winLevel` the control-scheme win threshold, `r` the random
draws a respawn consumes. -/
def outcomeStep (W H : ℚ) (winLevel : ℤ) (continueKey inputDelayElapsed : Bool)
    (r : RandIn) (g : GameState) : GameState :=
  if g.lander.landed || g.lander.crashed then
    if g.lander.crashed then
      let g1 := if !g.explosionActive && !g.explosionCompleted then
                  { g with explosionActive := true, explosionCompleted := true }
                else g
      if g1.lives ≤ 1 then { g1 with gameOver := true }
      else if continueKey then
        let l := landerReset W r.padX r.hasTexture r.texAspect
        { g1 with lives := g1.lives - 1, lander := l,
                  terrain := randomizeTerrain W H l.landingPadX r.heights,
                  explosionCompleted := false }
      else g1
    else if inputDelayElapsed && continueKey then
      if winLevel ≤ g.level then { g with gameWon := true }
      else
        let grav1 := g.gravity + gravityIncrease
        let maxG := if MAX_GRAVITY < grav1 then true else g.maxGravityReached
        let grav2 := if MAX_GRAVITY < grav1 then MAX_GRAVITY else grav1
        let fc := if maxG then
            (let f1 := g.fuelConsumption + fuelConsumptionIncrease
             if MAX_FUEL_CONSUMPTION < f1 then MAX_FUEL_CONSUMPTION else f1)
          else g.fuelConsumption
        let l := landerReset W r.padX r.hasTexture r.texAspect
        { g with gravity := grav2, maxGravityReached := maxG, fuelConsumption := fc,
                 level := g.level + 1, lander := l,
                 terrain := randomizeTerrain W H l.landingPadX r.heights }
    else g
  else g

/-- `Game::Reset` (src/game.cpp:160-175): the full-run restart. -/
def gameReset (W H : ℚ) (r : RandIn) (g : GameState) : GameState :=
  let l := landerReset W r.padX r.hasTexture r.texAspect
  { g with lives := 3, level := 1, gravity := INITIAL_GRAVITY,
           maxGravityReached := false, velocityLimit := INITIAL_VELOCITY_LIMIT,
           explosionCompleted := false, gameWon := false,
           fuelConsumption := initialFuelConsumption, lander := l,
           terrain := randomizeTerrain W H l.landingPadX r.heights,
           gameOver := false }

/-! ### Concrete instantiation vectors -/

/-- A minimal environment over empty terrain: no gravity, unit thrust and
rotation speed, burn rate 10, the default velocity limit. -/
def cEnv : Env :=
  { gravity := 0, thrust := 1, rotationSpeed := 1, fuelConsumption := 10,
    velocityLimit := 4/5, gameScreenWidth := 1000, gameScreenHeight := 600,
    sinDeg := fun _ => 0, cosDeg := fun _ => 0, terrain := [] }

/-- A flying craft with 5 units of fuel, level attitude, at rest. -/
def cState : LanderState :=
  { landerX := 100, landerY := 10, velocityX := 0, velocityY := 0, angle := 0,
    fuel := 5, landed := false, crashed := false, width := 10, height := 10,
    landingPadX := 0, crashPosX := 0, crashPosY := 0 }

/-- The same craft with a full tank. -/
def cStateFueled : LanderState := { cState with fuel := 100 }

/-- An environment whose flat terrain at height 100 equals the pad height
for screen height 150; the pad is centred at x = 100. -/
def envW : Env :=
  { gravity := 0, thrust := 1, rotationSpeed := 1, fuelConsumption := 10,
    velocityLimit := 4/5, gameScreenWidth := 200, gameScreenHeight := 150,
    sinDeg := fun _ => 0, cosDeg := fun _ => 1,
    terrain := [(0, 100), (200, 100)] }

/-- A craft one tick away from a clean touchdown at the pad centre of
`envW`: its collision bottom (103) is below the terrain height (100). -/
def sW : LanderState :=
  { landerX := 76, landerY := 55, velocityX := 0, velocityY := 0, angle := 0,
    fuel := 0, landed := false, crashed := false, width := 60, height := 60,
    landingPadX := 100, crashPosX := 0, crashPosY := 0 }

/-- Fixed random draws for a respawn. -/
def rIn : RandIn := { padX := 100, hasTexture := false, texAspect := 1, heights := fun _ => 0 }

/-- A session that has just landed on level 7 with gravity one increment
below the cap and the initial fuel-burn rate. -/
def gBug : GameState :=
  { lives := 3, level := 7, gravity := 19/10, maxGravityReached := false,
    velocityLimit := 4/5, fuelConsumption := 10, gameOver := false,
    gameWon := false, explosionActive := false, explosionCompleted := false,
    lander := { sW with landed := true }, terrain := [] }

/-- A session whose craft has just crashed, with 3 lives in hand. -/
def gCrash : GameState :=
  { lives := 3, level := 2, gravity := 23/20, maxGravityReached := false,
    velocityLimit := 4/5, fuelConsumption := 10, gameOver := false,
    gameWon := false, explosionActive := false, explosionCompleted := false,
    lander := { sW with crashed := true }, terrain := [] }

/-- The same crashed session down to its last life. -/
def gCrashLast : GameState := { gCrash with lives := 1 }

/-! ### Helper lemmas -/

theorem fmaxf_eq_max (a b : ℚ) : fmaxf a b = max a b := by
  unfold fmaxf
  split_ifs with h
  · exact (max_eq_right h.le).symm
  · exact (max_eq_left (not_lt.mp h)).symm

theorem fminf_eq_min (a b : ℚ) : fminf a b = min a b := by
  unfold fminf
  split_ifs with h
  · exact (min_eq_right h.le).symm
  · exact (min_eq_left (not_lt.mp h)).symm

theorem fabsf_eq_abs (x : ℚ) : fabsf x = |x| := by
  unfold fabsf
  split_ifs with h
  · exact (abs_of_neg h).symm
  · exact (abs_of_nonneg (not_lt.mp h)).symm

theorem resolveCollision_fuel (env : Env) (s : LanderState) :
    (resolveCollision env s).fuel = s.fuel := by
  unfold resolveCollision
  cases findHit (centerXOf s) (bottomOf s) env.terrain with
  | none => rfl
  | some h =>
    dsimp only
    split_ifs <;> rfl

theorem resolveCollision_angle (env : Env) (s : LanderState) :
    (resolveCollision env s).angle = s.angle := by
  unfold resolveCollision
  cases findHit (centerXOf s) (bottomOf s) env.terrain with
  | none => rfl
  | some h =>
    dsimp only
    split_ifs <;> rfl

theorem resolveCollision_height (env : Env) (s : LanderState) :
    (resolveCollision env s).height = s.height := by
  unfold resolveCollision
  cases findHit (centerXOf s) (bottomOf s) env.terrain with
  | none => rfl
  | some h =>
    dsimp only
    split_ifs <;> rfl

theorem integrate_landed (env : Env) (dt : ℚ) (a b c : Bool) (s : LanderState) :
    (integrate env dt a b c s).landed = s.landed := rfl

theorem integrate_crashed (env : Env) (dt : ℚ) (a b c : Bool) (s : LanderState) :
    (integrate env dt a b c s).crashed = s.crashed := rfl

theorem integrate_height (env : Env) (dt : ℚ) (a b c : Bool) (s : LanderState) :
    (integrate env dt a b c s).height = s.height := rfl

theorem integrate_landingPadX (env : Env) (dt : ℚ) (a b c : Bool) (s : LanderState) :
    (integrate env dt a b c s).landingPadX = s.landingPadX := rfl

theorem integrate_fuel (env : Env) (dt : ℚ) (th rl rr : Bool) (s : LanderState) :
    (integrate env dt th rl rr s).fuel =
      (if (rl || rr) && decide (0 < s.fuel) then
        fmaxf 0 ((if th && decide (0 < s.fuel) then
                    fmaxf 0 (s.fuel - env.fuelConsumption * dt) else s.fuel)
                 - env.fuelConsumption * (1/2) * dt)
      else (if th && decide (0 < s.fuel) then
              fmaxf 0 (s.fuel - env.fuelConsumption * dt) else s.fuel)) := rfl

theorem integrate_angle (env : Env) (dt : ℚ) (th rl rr : Bool) (s : LanderState) :
    (integrate env dt th rl rr s).angle =
      (if (rl || rr) && decide (0 < s.fuel) then
        (if rr then
          fmodq ((if rl then fmodq (s.angle + env.rotationSpeed) 360 else s.angle)
                 - env.rotationSpeed) 360
        else (if rl then fmodq (s.angle + env.rotationSpeed) 360 else s.angle))
      else s.angle) := rfl

theorem update_fuel_eq (env : Env) (dt : ℚ) (th rl rr : Bool) (s : LanderState)
    (h1 : s.landed = false) (h2 : s.crashed = false) :
    (update env dt th rl rr s).fuel = (integrate env dt th rl rr s).fuel := by
  unfold update
  rw [h1, h2]
  simp only [Bool.or_self, Bool.false_eq_true, if_false]
  exact resolveCollision_fuel env _

theorem update_angle_eq (env : Env) (dt : ℚ) (th rl rr : Bool) (s : LanderState)
    (h1 : s.landed = false) (h2 : s.crashed = false) :
    (update env dt th rl rr s).angle = (integrate env dt th rl rr s).angle := by
  unfold update
  rw [h1, h2]
  simp only [Bool.or_self, Bool.false_eq_true, if_false]
  exact resolveCollision_angle env _

/-! ### Claims -/

/-- C2: while the craft is Flying, an `Update` tick never increases `fuel`
and keeps it inside `[0, 100]`; at `fuel = 0` the tick coincides with an
input-free tick (no thrust and no rotation are applied, fuel stays 0), and
`Lander::Reset` restores `fuel` to exactly 100. -/
theorem fuel_invariant (env : Env) (dt : ℚ) (th rl rr : Bool) (s : LanderState)
    (sw px : ℚ) (ht : Bool) (ta : ℚ)
    (hfly1 : s.landed = false) (hfly2 : s.crashed = false)
    (hdt : 0 ≤ dt) (hfc : 0 ≤ env.fuelConsumption)
    (h0 : 0 ≤ s.fuel) (h100 : s.fuel ≤ 100) :
    (update env dt th rl rr s).fuel ≤ s.fuel ∧
    0 ≤ (update env dt th rl rr s).fuel ∧
    (update env dt th rl rr s).fuel ≤ 100 ∧
    (s.fuel = 0 → update env dt th rl rr s = update env dt false false false s ∧
                  (update env dt th rl rr s).fuel = 0) ∧
    (landerReset sw px ht ta).fuel = 100 := by
  have hcdt : 0 ≤ env.fuelConsumption * dt := mul_nonneg hfc hdt
  have hcdt2 : 0 ≤ env.fuelConsumption * (1/2) * dt :=
    mul_nonneg (mul_nonneg hfc (by norm_num)) hdt
  rw [update_fuel_eq env dt th rl rr s hfly1 hfly2, integrate_fuel]
  have key : ∀ f : ℚ, 0 ≤ f →
      0 ≤ fmaxf 0 (f - env.fuelConsumption * dt) ∧
      fmaxf 0 (f - env.fuelConsumption * dt) ≤ f := by
    intro f hf
    rw [fmaxf_eq_max]
    exact ⟨le_max_left _ _, max_le hf (by linarith)⟩
  have key2 : ∀ f : ℚ, 0 ≤ f →
      0 ≤ fmaxf 0 (f - env.fuelConsumption * (1/2) * dt) ∧
      fmaxf 0 (f - env.fuelConsumption * (1/2) * dt) ≤ f := by
    intro f hf
    rw [fmaxf_eq_max]
    exact ⟨le_max_left _ _, max_le hf (by linarith)⟩
  refine ⟨?_, ?_, ?_, ?_, rfl⟩
  · split_ifs with hrot hthr hthr
    · exact le_trans ((key2 _ (key s.fuel h0).1).2) (key s.fuel h0).2
    · exact (key2 s.fuel h0).2
    · exact (key s.fuel h0).2
    · exact le_refl _
  · split_ifs with hrot hthr hthr
    · exact (key2 _ (key s.fuel h0).1).1
    · exact (key2 s.fuel h0).1
    · exact (key s.fuel h0).1
    · exact h0
  · split_ifs with hrot hthr hthr
    · exact le_trans (le_trans ((key2 _ (key s.fuel h0).1).2) (key s.fuel h0).2) h100
    · exact le_trans (key2 s.fuel h0).2 h100
    · exact le_trans (key s.fuel h0).2 h100
    · exact h100
  · intro hz
    have hdz : decide (0 < s.fuel) = false := by simp [hz]
    constructor
    · unfold update integrate
      rw [hdz]
      simp
    · rw [hz]
      simp [hdz]

/-- C3 counterexample: with fuel 5, burn rate 10 and `dt = 1`, a tick
holding both thrust and rotate-left exhausts the fuel inside the thrust
branch, yet the rotation branch still fires (the angle moves from 0 to 1),
because the rotation gate read `fuel > 0` at the start of the tick — the
claim says no further force application may occur once fuel hits 0
mid-tick. -/
theorem midtick_gate_counterexample :
    (update cEnv 1 true true false cState).fuel = 0 ∧
    (update cEnv 1 true true false cState).angle = 1 ∧ (1 : ℚ) ≠ 0 := by
  refine ⟨?_, ?_, by norm_num⟩ <;>
    norm_num [update, integrate, resolveCollision, findHit, centerXOf, bottomOf,
      centerYOf, normalizedAngle, fmodq, qtrunc, fmaxf, fminf, fabsf,
      collisionScale, cEnv, cState]

/-- C3 amended: the `fuel > 0` gate for the rotation branch is evaluated
once at the start of the tick, before thrust consumption; so when thrust
exhausts the fuel mid-tick, a held rotation still applies its angle change
in that same tick, while both fuel decrements stay clamped at 0. -/
theorem midtick_gate_amended (env : Env) (dt : ℚ) (s : LanderState)
    (hfly1 : s.landed = false) (hfly2 : s.crashed = false)
    (hf : 0 < s.fuel)
    (hext : s.fuel - env.fuelConsumption * dt ≤ 0) :
    (update env dt true true false s).fuel = 0 ∧
    (update env dt true true false s).angle =
      fmodq (s.angle + env.rotationSpeed) 360 := by
  have hd : decide (0 < s.fuel) = true := decide_eq_true hf
  constructor
  · rw [update_fuel_eq env dt true true false s hfly1 hfly2, integrate_fuel, hd]
    simp only [Bool.true_or, Bool.and_self, if_true, Bool.and_true]
    have h1 : fmaxf 0 (s.fuel - env.fuelConsumption * dt) = 0 := by
      rw [fmaxf_eq_max]
      exact max_eq_left (by linarith)
    rw [h1, fmaxf_eq_max]
    apply max_eq_left
    nlinarith
  · rw [update_angle_eq env dt true true false s hfly1 hfly2, integrate_angle, hd]
    simp

/-- C4 counterexample: with `rotationSpeed = 1` and `dt = 1/2`, a
rotate-left tick moves the angle from 0 to 1 — by `rotationSpeed`, not by
`rotationSpeed * dt = 1/2` as the claim states (the source adds
`rotationSpeed` without the `dt` factor, src/lander.cpp:133). -/
theorem rotation_dt_counterexample :
    (update cEnv (1/2) false true false cStateFueled).angle = 1 ∧
    fmodq (cStateFueled.angle + cEnv.rotationSpeed * (1/2)) 360 = 1/2 ∧
    (1 : ℚ) ≠ 1/2 := by
  refine ⟨?_, ?_, by norm_num⟩ <;>
    norm_num [update, integrate, resolveCollision, findHit, centerXOf, bottomOf,
      centerYOf, normalizedAngle, fmodq, qtrunc, fmaxf, fminf, fabsf,
      collisionScale, cEnv, cState, cStateFueled]

/-- C4 amended: when Flying with fuel > 0 and a rotation input held, one
tick changes the angle by `rotationSpeed` (not scaled by `dt`): added for
left, subtracted for right, wrapped through `fmod … 360`; and fuel is
decremented by `fuelConsumption * 0.5 * dt` (clamped at 0) on top of
whatever the thrust branch consumed this tick. -/
theorem rotation_step_amended (env : Env) (dt : ℚ) (th : Bool) (s : LanderState)
    (hfly1 : s.landed = false) (hfly2 : s.crashed = false) (hf : 0 < s.fuel) :
    (update env dt th true false s).angle = fmodq (s.angle + env.rotationSpeed) 360 ∧
    (update env dt th false true s).angle = fmodq (s.angle - env.rotationSpeed) 360 ∧
    (update env dt false true false s).fuel =
      fmaxf 0 (s.fuel - env.fuelConsumption * (1/2) * dt) ∧
    (update env dt true true false s).fuel =
      fmaxf 0 (fmaxf 0 (s.fuel - env.fuelConsumption * dt)
               - env.fuelConsumption * (1/2) * dt) := by
  have hd : decide (0 < s.fuel) = true := decide_eq_true hf
  refine ⟨?_, ?_, ?_, ?_⟩
  · rw [update_angle_eq env dt th true false s hfly1 hfly2, integrate_angle, hd]
    simp
  · rw [update_angle_eq env dt th false true s hfly1 hfly2, integrate_angle, hd]
    simp
  · rw [update_fuel_eq env dt false true false s hfly1 hfly2, integrate_fuel, hd]
    simp
  · rw [update_fuel_eq env dt true true false s hfly1 hfly2, integrate_fuel, hd]
    simp

/-- C1: on a Flying tick whose post-integration state makes terrain
contact (the scan of src/lander.cpp:188-253 finds a containing segment
with the collision-box bottom at or below the interpolated height `hgt`),
`Update` resolves the tick to Landed or Crashed, never to neither; it
lands exactly when the pad-distance, pad-height-epsilon, both
velocity-limit checks and the normalized-angle check all pass, and
crashes exactly when any of them fails. -/
theorem touchdown_classification (env : Env) (dt : ℚ) (th rl rr : Bool)
    (s : LanderState) (hgt : ℚ)
    (hfly1 : s.landed = false) (hfly2 : s.crashed = false)
    (hhit : findHit (centerXOf (integrate env dt th rl rr s))
              (bottomOf (integrate env dt th rl rr s)) env.terrain = some hgt) :
    ((update env dt th rl rr s).landed = true ∨
     (update env dt th rl rr s).crashed = true) ∧
    ((update env dt th rl rr s).landed = true ↔
      (fabsf (centerXOf (integrate env dt th rl rr s) - s.landingPadX) ≤ 50 ∧
       fabsf (hgt - (env.gameScreenHeight - 50)) < 1 ∧
       fabsf (integrate env dt th rl rr s).velocityX < env.velocityLimit ∧
       fabsf (integrate env dt th rl rr s).velocityY < env.velocityLimit ∧
       fabsf (normalizedAngle (integrate env dt th rl rr s).angle) < 15)) ∧
    ((update env dt th rl rr s).crashed = true ↔
      ¬(fabsf (centerXOf (integrate env dt th rl rr s) - s.landingPadX) ≤ 50 ∧
        fabsf (hgt - (env.gameScreenHeight - 50)) < 1 ∧
        fabsf (integrate env dt th rl rr s).velocityX < env.velocityLimit ∧
        fabsf (integrate env dt th rl rr s).velocityY < env.velocityLimit ∧
        fabsf (normalizedAngle (integrate env dt th rl rr s).angle) < 15)) := by
  have hld := integrate_landed env dt th rl rr s
  have hcr := integrate_crashed env dt th rl rr s
  have hpad := integrate_landingPadX env dt th rl rr s
  unfold update
  rw [hfly1, hfly2]
  simp only [Bool.or_self, Bool.false_eq_true, if_false]
  unfold resolveCollision
  rw [hhit, hpad]
  dsimp only
  split_ifs with hA hB
  · refine ⟨Or.inl rfl, ?_, ?_⟩
    · simp only [true_iff]
      exact ⟨hA.1, hA.2.1, hA.2.2.1, hA.2.2.2, hB⟩
    · rw [hcr, hfly2]
      simp only [Bool.false_eq_true, false_iff, not_not]
      exact ⟨hA.1, hA.2.1, hA.2.2.1, hA.2.2.2, hB⟩
  · refine ⟨Or.inr rfl, ?_, ?_⟩
    · rw [hld, hfly1]
      simp only [Bool.false_eq_true, false_iff]
      intro hcon
      exact hB hcon.2.2.2.2
    · simp only [true_iff]
      intro hcon
      exact hB hcon.2.2.2.2
  · refine ⟨Or.inr rfl, ?_, ?_⟩
    · rw [hld, hfly1]
      simp only [Bool.false_eq_true, false_iff]
      intro hcon
      exact hA ⟨hcon.1, hcon.2.1, hcon.2.2.1, hcon.2.2.2.1⟩
    · simp only [true_iff]
      intro hcon
      exact hA ⟨hcon.1, hcon.2.1, hcon.2.2.1, hcon.2.2.2.1⟩

/-- C9 counterexample: in the clean-landing scenario (`envW`, `sW`) the
contact height is 100, but after the snap of src/lander.cpp:249 the bottom
edge of the collision rectangle sits at 94, six units above the terrain —
not exactly on it as the claim states. -/
theorem snap_gap_counterexample :
    findHit (centerXOf (integrate envW 1 false false false sW))
      (bottomOf (integrate envW 1 false false false sW)) envW.terrain = some 100 ∧
    bottomOf (update envW 1 false false false sW) = 94 ∧ (94 : ℚ) ≠ 100 := by
  refine ⟨?_, ?_, by norm_num⟩ <;>
    norm_num [update, integrate, resolveCollision, findHit, centerXOf, bottomOf,
      centerYOf, normalizedAngle, fmodq, qtrunc, fmaxf, fminf, fabsf,
      collisionScale, envW, sW]

/-- C9 amended: on every tick resolved as Landed or Crashed, the craft's Y
is snapped so that the bottom edge of the collision rectangle sits at the
interpolated terrain height minus `(height - scaledHeight) / 2` (six units
above the surface for the 60-unit craft): the snap formula positions the
collision box as if it were vertically centred in the sprite, while the
contact test anchors it at the sprite top. -/
theorem snap_offset_amended (env : Env) (dt : ℚ) (th rl rr : Bool)
    (s : LanderState) (hgt : ℚ)
    (hfly1 : s.landed = false) (hfly2 : s.crashed = false)
    (hhit : findHit (centerXOf (integrate env dt th rl rr s))
              (bottomOf (integrate env dt th rl rr s)) env.terrain = some hgt) :
    bottomOf (update env dt th rl rr s) =
      hgt - (s.height - s.height * collisionScale) / 2 := by
  unfold update
  rw [hfly1, hfly2]
  simp only [Bool.or_self, Bool.false_eq_true, if_false]
  unfold resolveCollision
  rw [hhit]
  dsimp only
  have hh := integrate_height env dt th rl rr s
  split_ifs with hA hB <;>
    · unfold bottomOf
      dsimp only
      rw [hh]
      ring

theorem fmodq_360_of_nonneg (x : ℚ) (hx : 0 ≤ x) :
    0 ≤ fmodq x 360 ∧ fmodq x 360 < 360 := by
  have hq : (0:ℚ) ≤ x / 360 := by positivity
  unfold fmodq qtrunc
  rw [if_pos hq]
  have hx360 : x / 360 * 360 = x := div_mul_cancel₀ x (by norm_num)
  have h1 : (⌊x / 360⌋ : ℚ) ≤ x / 360 := Int.floor_le _
  have h2 : x / 360 < ⌊x / 360⌋ + 1 := Int.lt_floor_add_one _
  have h1m : (⌊x / 360⌋ : ℚ) * 360 ≤ x / 360 * 360 :=
    mul_le_mul_of_nonneg_right h1 (by norm_num)
  have h2m : x / 360 * 360 < ((⌊x / 360⌋ : ℚ) + 1) * 360 :=
    mul_lt_mul_of_pos_right h2 (by norm_num)
  constructor <;> nlinarith

theorem fmodq_360_of_neg (x : ℚ) (hx : x < 0) :
    -360 < fmodq x 360 ∧ fmodq x 360 ≤ 0 := by
  have hq : x / 360 < 0 := div_neg_of_neg_of_pos hx (by norm_num)
  unfold fmodq qtrunc
  rw [if_neg (not_le.mpr hq)]
  have hx360 : x / 360 * 360 = x := div_mul_cancel₀ x (by norm_num)
  have h1 : x / 360 ≤ (⌈x / 360⌉ : ℚ) := Int.le_ceil _
  have h2 : (⌈x / 360⌉ : ℚ) < x / 360 + 1 := Int.ceil_lt_add_one _
  have h1m : x / 360 * 360 ≤ (⌈x / 360⌉ : ℚ) * 360 :=
    mul_le_mul_of_nonneg_right h1 (by norm_num)
  have h2m : (⌈x / 360⌉ : ℚ) * 360 < (x / 360 + 1) * 360 :=
    mul_lt_mul_of_pos_right h2 (by norm_num)
  constructor <;> nlinarith

theorem fmodq_360_mem (x : ℚ) : -360 < fmodq x 360 ∧ fmodq x 360 < 360 := by
  rcases le_or_lt 0 x with hx | hx
  · have := fmodq_360_of_nonneg x hx
    exact ⟨by linarith [this.1], this.2⟩
  · have := fmodq_360_of_neg x hx
    exact ⟨this.1, by linarith [this.2]⟩

theorem fmodq_360_id_of_neg (x : ℚ) (h1 : -360 < x) (h2 : x < 0) :
    fmodq x 360 = x := by
  have hq : x / 360 < 0 := div_neg_of_neg_of_pos h2 (by norm_num)
  unfold fmodq qtrunc
  rw [if_neg (not_le.mpr hq)]
  have hz : ⌈x / 360⌉ = 0 := by
    rw [Int.ceil_eq_zero_iff]
    refine ⟨?_, le_of_lt hq⟩
    show (-1 : ℚ) < x / 360
    rw [lt_div_iff (by norm_num : (0:ℚ) < 360)]
    linarith
  rw [hz]
  push_cast
  ring

theorem normalizedAngle_mem (a : ℚ) (h1 : -360 < a) (h2 : a < 360) :
    -360 < normalizedAngle a ∧ normalizedAngle a < 180 := by
  unfold normalizedAngle
  rcases le_or_lt 0 (a + 180) with hc | hc
  · have hb := fmodq_360_of_nonneg (a + 180) hc
    exact ⟨by linarith [hb.1], by linarith [hb.2]⟩
  · rw [fmodq_360_id_of_neg (a + 180) (by linarith) hc]
    exact ⟨by linarith, by linarith⟩

theorem update_angle_mem (env : Env) (dt : ℚ) (a b c : Bool) (s : LanderState)
    (h1 : -360 < s.angle) (h2 : s.angle < 360) :
    -360 < (update env dt a b c s).angle ∧ (update env dt a b c s).angle < 360 := by
  unfold update
  split_ifs with hterm
  · exact ⟨h1, h2⟩
  · rw [resolveCollision_angle, integrate_angle]
    split_ifs <;> first | exact fmodq_360_mem _ | exact ⟨h1, h2⟩

/-- C5 counterexample: starting from the reset state (angle 0), a single
rotate-right tick stores angle `-1` — `fmodf` keeps the sign of its
dividend, so the internally stored angle leaves `[0, 360)` immediately,
contrary to the claim. -/
theorem angle_range_counterexample :
    (update cEnv 1 false false true (landerReset 800 400 false 1)).angle = -1 ∧
    ¬(0 ≤ (update cEnv 1 false false true (landerReset 800 400 false 1)).angle) := by
  have h : (update cEnv 1 false false true (landerReset 800 400 false 1)).angle = -1 := by
    norm_num [update, integrate, resolveCollision, findHit, landerReset, centerXOf,
      bottomOf, centerYOf, normalizedAngle, fmodq, qtrunc, fmaxf, fminf, fabsf,
      collisionScale, cEnv]
  refine ⟨h, ?_⟩
  rw [h]
  norm_num

/-- C5 amended: for every input sequence from the reset state the stored
angle stays within `(-360, 360)` (not `[0, 360)`: C `fmodf` keeps the
dividend's sign), and the normalized angle `fmod(angle+180,360)-180` stays
within `(-360, 180)` (not `(-180, 180]`: a stored angle in `(-360, -180]`
normalizes to itself). -/
theorem angle_range_amended (env : Env) (inputs : List (ℚ × Bool × Bool × Bool))
    (sw px : ℚ) (ht : Bool) (ta : ℚ) :
    -360 < (runTicks env inputs (landerReset sw px ht ta)).angle ∧
    (runTicks env inputs (landerReset sw px ht ta)).angle < 360 ∧
    -360 < normalizedAngle (runTicks env inputs (landerReset sw px ht ta)).angle ∧
    normalizedAngle (runTicks env inputs (landerReset sw px ht ta)).angle < 180 := by
  have main : ∀ (l : List (ℚ × Bool × Bool × Bool)) (s : LanderState),
      -360 < s.angle → s.angle < 360 →
      -360 < (runTicks env l s).angle ∧ (runTicks env l s).angle < 360 := by
    intro l
    induction l with
    | nil => intro s hs1 hs2; exact ⟨hs1, hs2⟩
    | cons hd tl ih =>
      intro s hs1 hs2
      have hstep := update_angle_mem env hd.1 hd.2.1 hd.2.2.1 hd.2.2.2 s hs1 hs2
      simpa only [runTicks, List.foldl_cons] using ih _ hstep.1 hstep.2
  have hreset : -360 < (landerReset sw px ht ta).angle ∧
      (landerReset sw px ht ta).angle < 360 := by
    unfold landerReset
    norm_num
  have hm := main inputs _ hreset.1 hreset.2
  have hn := normalizedAngle_mem _ hm.1 hm.2
  exact ⟨hm.1, hm.2, hn.1, hn.2⟩

theorem randomizeTerrain_length (W H c : ℚ) (rand : ℕ → ℚ) :
    (randomizeTerrain W H c rand).length = TERRAIN_POINTS := by
  simp [randomizeTerrain]

theorem baseY_flat (W H c : ℚ) (rand : ℕ → ℚ) (i : ℕ) (hseg : 0 ≤ W / 39)
    (hlo : c - 50 ≤ (i : ℚ) * (W / 39)) (hhi : (i : ℚ) * (W / 39) ≤ c + 50) :
    baseY W H c rand i = H - 50 := by
  unfold baseY
  dsimp only
  have h1 : c - 50 - W / 39 ≤ (i : ℚ) * (W / 39) ∧
      (i : ℚ) * (W / 39) ≤ c + 50 + W / 39 := ⟨by linarith, by linarith⟩
  rw [if_pos h1, if_neg (not_lt.mpr hlo), if_neg (not_lt.mpr hhi)]

theorem pass1Y_skip (W H c : ℚ) (rand : ℕ → ℚ) (i : ℕ)
    (hreg : c - 50 - W / 39 ≤ (i : ℚ) * (W / 39) ∧
            (i : ℚ) * (W / 39) ≤ c + 50 + W / 39) :
    pass1Y W H c rand i = baseY W H c rand i := by
  unfold pass1Y
  dsimp only
  by_cases hint : 1 ≤ i ∧ i ≤ 38
  · rw [if_pos hint, if_pos hreg]
  · rw [if_neg hint]

theorem pass2Y_skip (W H c : ℚ) (rand : ℕ → ℚ) (i : ℕ)
    (hreg : c - 50 - W / 39 ≤ (i : ℚ) * (W / 39) ∧
            (i : ℚ) * (W / 39) ≤ c + 50 + W / 39) :
    pass2Y W H c rand i = pass1Y W H c rand i := by
  unfold pass2Y
  dsimp only
  by_cases hint : 1 ≤ i ∧ i ≤ 38
  · rw [if_pos hint, if_pos hreg]
  · rw [if_neg hint]

/-- C8: every generated sample point whose x lies in the flat pad range
`[padCenterX - 50, padCenterX + 50]` carries exactly the pad height
`gameScreenHeight - 50`, and both smoothing passes skip (leave unchanged)
every point whose x lies in the pad region extended by one segment width
on each side — so smoothing never modifies a pad-region point. -/
theorem pad_flatness (W H c : ℚ) (rand : ℕ → ℚ) (hW : 0 < W) :
    ∀ i : ℕ, ∀ hi : i < TERRAIN_POINTS,
      (randomizeTerrain W H c rand).get
          ⟨i, lt_of_lt_of_eq hi (randomizeTerrain_length W H c rand).symm⟩ =
        ((i : ℚ) * (W / 39), pass2Y W H c rand i) ∧
      (c - 50 ≤ (i : ℚ) * (W / 39) ∧ (i : ℚ) * (W / 39) ≤ c + 50 →
        pass2Y W H c rand i = H - 50) ∧
      (c - 50 - W / 39 ≤ (i : ℚ) * (W / 39) ∧
       (i : ℚ) * (W / 39) ≤ c + 50 + W / 39 →
        pass1Y W H c rand i = baseY W H c rand i ∧
        pass2Y W H c rand i = pass1Y W H c rand i) := by
  intro i hi
  have hseg : 0 ≤ W / 39 := by positivity
  refine ⟨?_, ?_, ?_⟩
  · simp [randomizeTerrain, List.get_eq_getElem, List.getElem_map, List.getElem_range]
  · intro hflat
    have hreg : c - 50 - W / 39 ≤ (i : ℚ) * (W / 39) ∧
        (i : ℚ) * (W / 39) ≤ c + 50 + W / 39 :=
      ⟨by linarith [hflat.1], by linarith [hflat.2]⟩
    rw [pass2Y_skip W H c rand i hreg, pass1Y_skip W H c rand i hreg,
        baseY_flat W H c rand i hseg hflat.1 hflat.2]
  · intro hreg
    exact ⟨pass1Y_skip W H c rand i hreg, pass2Y_skip W H c rand i hreg⟩

theorem noZeroWidth_of_forall (l : List (ℚ × ℚ))
    (h : ∀ i : ℕ, ∀ hi1 : i + 1 < l.length,
      (l.get ⟨i + 1, hi1⟩).1 - (l.get ⟨i, Nat.lt_of_succ_lt hi1⟩).1 ≠ 0) :
    noZeroWidth l = true := by
  induction l with
  | nil => rfl
  | cons p t ih =>
    cases t with
    | nil => rfl
    | cons q r =>
      show (decide (q.1 - p.1 ≠ 0) && noZeroWidth (q :: r)) = true
      rw [Bool.and_eq_true]
      constructor
      · apply decide_eq_true
        have h0 := h 0 (by simp)
        simpa using h0
      · apply ih
        intro i hi1
        have hsucc : (i + 1) + 1 < (p :: q :: r).length := by
          simpa using Nat.succ_lt_succ hi1
        have := h (i + 1) hsucc
        simpa using this

theorem scan_no_div_of_noZeroWidth (cX b : ℚ) :
    ∀ l : List (ℚ × ℚ), noZeroWidth l = true → scanDividesByZero cX b l = false := by
  intro l
  induction l with
  | nil => intro _; rfl
  | cons p t ih =>
    cases t with
    | nil => intro _; rfl
    | cons q r =>
      intro hnz
      have hnz' : (decide (q.1 - p.1 ≠ 0) && noZeroWidth (q :: r)) = true := hnz
      rw [Bool.and_eq_true] at hnz'
      have hne : q.1 - p.1 ≠ 0 := of_decide_eq_true hnz'.1
      unfold scanDividesByZero
      by_cases hcont : p.1 ≤ cX ∧ cX ≤ q.1
      · rw [if_pos hcont, if_neg hne]
        dsimp only
        by_cases hhit : p.2 * (1 - (cX - p.1) / (q.1 - p.1)) +
            q.2 * ((cX - p.1) / (q.1 - p.1)) ≤ b
        · rw [if_pos hhit]
        · rw [if_neg hhit]
          exact ih hnz'.2
      · rw [if_neg hcont]
        exact ih hnz'.2

/-- C10 counterexample: on the degenerate terrain with a zero-width
segment from (5, 100) to (5, 200), a scan at `centerX = 5` reaches the
interpolation division with divisor `5 - 5 = 0` — the containment test of
src/lander.cpp:190 passes and the division at src/lander.cpp:192 executes
with no width test before it, so the claimed skip-or-clamp guard against
a zero-width segment does not exist. -/
theorem interp_guard_counterexample :
    scanDividesByZero 5 200 [(5, 100), (5, 200)] = true ∧
    noZeroWidth [(5, 100), (5, 200)] = false := by
  constructor <;> norm_num [scanDividesByZero, noZeroWidth]

/-- C10 amended: the interpolation in the collision scan has no zero-width
guard (it divides unconditionally on any containing segment, as the
counterexample shows); instead, every terrain profile produced by
`Game::Randomize` has strictly positive per-segment x-spacing (exactly
`gameScreenWidth / 39`), so the interpolation divisor is nonzero at every
segment, and on generated terrain the scan never reaches a division by
zero for any scan position — the degenerate case that would produce a NaN
is unreachable during collision resolution. -/
theorem terrain_spacing_positive (W H c : ℚ) (rand : ℕ → ℚ) (hW : 0 < W) :
    (∀ i : ℕ, ∀ hi1 : i + 1 < TERRAIN_POINTS,
      ((randomizeTerrain W H c rand).get
          ⟨i + 1, lt_of_lt_of_eq hi1 (randomizeTerrain_length W H c rand).symm⟩).1 -
      ((randomizeTerrain W H c rand).get
          ⟨i, lt_of_lt_of_eq (Nat.lt_of_succ_lt hi1)
                (randomizeTerrain_length W H c rand).symm⟩).1 = W / 39 ∧
      0 < W / 39) ∧
    noZeroWidth (randomizeTerrain W H c rand) = true ∧
    (∀ cX b : ℚ, scanDividesByZero cX b (randomizeTerrain W H c rand) = false) := by
  have hpos : (0 : ℚ) < W / 39 := by positivity
  have hsp : ∀ (i : ℕ) (h1 : i + 1 < (randomizeTerrain W H c rand).length)
      (h2 : i < (randomizeTerrain W H c rand).length),
      ((randomizeTerrain W H c rand).get ⟨i + 1, h1⟩).1 -
      ((randomizeTerrain W H c rand).get ⟨i, h2⟩).1 = W / 39 := by
    intro i h1 h2
    simp only [randomizeTerrain, List.get_eq_getElem, List.getElem_map,
      List.getElem_range]
    push_cast
    ring
  have hnz : noZeroWidth (randomizeTerrain W H c rand) = true := by
    apply noZeroWidth_of_forall
    intro i hi1
    rw [hsp i hi1 (Nat.lt_of_succ_lt hi1)]
    exact ne_of_gt hpos
  refine ⟨?_, hnz, ?_⟩
  · intro i hi1
    exact ⟨hsp i _ _, hpos⟩
  · intro cX b
    exact scan_no_div_of_noZeroWidth cX b _ hnz

/-- C6 (code bug): at the first level-advance that saturates gravity
(here gravity 1.9 → clamp at 2.0), the fuel-burn escalation fires:
`fuelConsumption += 0.01` then clamp at `MAX_FUEL_CONSUMPTION = 0.1`.
Because the initial burn rate is 10.0 — far above the 0.1 cap — the clamp
*lowers* the rate from 10.0 to 0.1 instead of capping an increase,
contradicting the non-decreasing ramp the claim (and the code's own
`fuelConsumptionIncrease`/`MAX_FUEL_CONSUMPTION` naming) describes. -/
theorem fuel_ramp_drop_bug :
    (outcomeStep 200 150 15 true true rIn gBug).gravity = 2 ∧
    (outcomeStep 200 150 15 true true rIn gBug).maxGravityReached = true ∧
    (outcomeStep 200 150 15 true true rIn gBug).fuelConsumption = 1 / 10 ∧
    (outcomeStep 200 150 15 true true rIn gBug).fuelConsumption <
      gBug.fuelConsumption := by
  refine ⟨?_, ?_, ?_, ?_⟩ <;>
    norm_num [outcomeStep, gBug, rIn, sW, landerReset, gravityIncrease,
      fuelConsumptionIncrease, MAX_GRAVITY, MAX_FUEL_CONSUMPTION]

/-- C7: when the craft has crashed, a tick with `lives ≤ 1` sets
`gameOver` immediately — for any value of the continue signal, so no
acknowledgment is awaited — and leaves `lives` untouched; with
`lives > 1` and the continue signal, `lives` drops by exactly 1, the
craft is reset, the terrain regenerated from the fresh pad position, and
gravity and fuel-burn rate are unchanged (and the game does not end). -/
theorem crash_lives_handling (W H : ℚ) (wl : ℤ) (ck idk : Bool) (r : RandIn)
    (g : GameState) (hcr : g.lander.crashed = true) :
    (g.lives ≤ 1 →
      (outcomeStep W H wl ck idk r g).gameOver = true ∧
      (outcomeStep W H wl ck idk r g).lives = g.lives) ∧
    (1 < g.lives → ck = true →
      (outcomeStep W H wl ck idk r g).lives = g.lives - 1 ∧
      (outcomeStep W H wl ck idk r g).lander =
        landerReset W r.padX r.hasTexture r.texAspect ∧
      (outcomeStep W H wl ck idk r g).terrain =
        randomizeTerrain W H r.padX r.heights ∧
      (outcomeStep W H wl ck idk r g).gravity = g.gravity ∧
      (outcomeStep W H wl ck idk r g).fuelConsumption = g.fuelConsumption ∧
      (outcomeStep W H wl ck idk r g).gameOver = g.gameOver) := by
  unfold outcomeStep
  rw [hcr]
  simp only [Bool.or_true, if_true, reduceIte]
  constructor
  · intro h1
    split_ifs with hexp hl hl <;> simp_all
  · intro h1 hck
    subst hck
    by_cases hexp : (!g.explosionActive && !g.explosionCompleted) = true
    · rw [if_pos hexp]
      have hnle :
          ¬ ({ g with explosionActive := true, explosionCompleted := true } : GameState).lives ≤ 1 := by
        show ¬ g.lives ≤ 1
        omega
      rw [if_neg hnle, if_pos rfl]
      exact ⟨rfl, rfl, rfl, rfl, rfl, rfl⟩
    · rw [if_neg hexp]
      have hnle : ¬ g.lives ≤ 1 := by omega
      rw [if_neg hnle, if_pos rfl]
      exact ⟨rfl, rfl, rfl, rfl, rfl, rfl⟩

/-! ### Witnesses -/

/-- Witness for C1 at the clean-landing scenario: the contact tick
resolves (here: to Landed). -/
theorem touchdown_classification_witness :
    (update envW 1 false false false sW).landed = true ∨
    (update envW 1 false false false sW).crashed = true :=
  (touchdown_classification envW 1 false false false sW 100 rfl rfl
    (by norm_num [integrate, findHit, centerXOf, bottomOf, fmaxf, fminf, fabsf,
      collisionScale, envW, sW])).1

/-- Witness for C2 at a thrust-and-rotate tick from fuel 5. -/
theorem fuel_invariant_witness :
    0 ≤ cState.fuel ∧ (update cEnv 1 true true false cState).fuel ≤ cState.fuel :=
  ⟨by norm_num [cState],
   (fuel_invariant cEnv 1 true true false cState 800 400 false 1 rfl rfl
      (by norm_num) (by norm_num [cEnv]) (by norm_num [cState])
      (by norm_num [cState])).1⟩

/-- Witness for the C3 amended theorem at the exhaustion tick. -/
theorem midtick_gate_amended_witness :
    0 < cState.fuel ∧ (update cEnv 1 true true false cState).fuel = 0 :=
  ⟨by norm_num [cState],
   (midtick_gate_amended cEnv 1 cState rfl rfl (by norm_num [cState])
      (by norm_num [cEnv, cState])).1⟩

/-- Witness for the C4 amended theorem at a rotate-left tick. -/
theorem rotation_step_amended_witness :
    (update cEnv 1 false true false cStateFueled).angle =
      fmodq (cStateFueled.angle + cEnv.rotationSpeed) 360 :=
  (rotation_step_amended cEnv 1 false cStateFueled rfl rfl
    (by norm_num [cStateFueled, cState])).1

/-- Witness for C7: a crash with 3 lives and continue costs one life; a
crash on the last life ends the game without a continue signal. -/
theorem crash_lives_handling_witness :
    (outcomeStep 200 150 15 true true rIn gCrash).lives = gCrash.lives - 1 ∧
    (outcomeStep 200 150 15 false true rIn gCrashLast).gameOver = true :=
  ⟨((crash_lives_handling 200 150 15 true true rIn gCrash rfl).2
      (by norm_num [gCrash]) rfl).1,
   ((crash_lives_handling 200 150 15 false true rIn gCrashLast rfl).1
      (by norm_num [gCrashLast, gCrash])).1⟩

/-- Witness for C8: with screen width 780 (segment width 20), pad centre
400 and screen height 450, sample point 20 (x = 400) carries the pad
height. -/
theorem pad_flatness_witness :
    pass2Y 780 450 400 (fun _ => 0) 20 = 450 - 50 :=
  ((pad_flatness 780 450 400 (fun _ => 0) (by norm_num) 20
      (by norm_num [TERRAIN_POINTS])).2.1)
    (by norm_num)

/-- Witness for the C10 amended theorem at a concrete terrain: every
segment has nonzero width and a concrete scan reaches no zero divisor. -/
theorem terrain_spacing_positive_witness :
    noZeroWidth (randomizeTerrain 780 450 400 (fun _ => 0)) = true ∧
    scanDividesByZero 5 200 (randomizeTerrain 780 450 400 (fun _ => 0)) = false :=
  ⟨(terrain_spacing_positive 780 450 400 (fun _ => 0) (by norm_num)).2.1,
   (terrain_spacing_positive 780 450 400 (fun _ => 0) (by norm_num)).2.2 5 200⟩

/-- Witness for the C9 amended theorem at the clean-landing scenario. -/
theorem snap_offset_amended_witness :
    bottomOf (update envW 1 false false false sW) =
      100 - (sW.height - sW.height * collisionScale) / 2 :=
  snap_offset_amended envW 1 false false false sW 100 rfl rfl
    (by norm_num [integrate, findHit, centerXOf, bottomOf, fmaxf, fminf, fabsf,
      collisionScale, envW, sW])

end Moonlander
